import Mathlib

/-!
A shallow embedding of `oneflow/python/ops/layers.py` (dense, conv2d,
layer_norm, layer_norm_grad, layer_norm_param_grad, batch_normalization,
upsample) and proofs about its argument validation, event ordering and
returned graph nodes.

Each layer function is translated into a Lean function returning `Trace Blob`:
the ordered list of externally visible events performed by the call (variable
registrations and operator-node constructions) together with either the
returned blob or the Python exception the call raises.  Blobs are modelled as
the expression trees this file hands to the external framework; shape and
dtype inference of framework operators is external and not modelled, except
for the facts the source itself reads back (a blob's stored shape and dtype).
Float-valued attributes (epsilon, momentum, height/width scale) are passed to
the framework unread by this file and are not represented in the node model.
-/

namespace OneFlowLayers

/-- Element dtypes, as far as the source distinguishes them
(`flow.float16`, `flow.float32`, anything else). -/
inductive Dtype where
  | float16
  | float32
  | double
  | int32
deriving DecidableEq, Repr

/-- Python exceptions the source can raise during validation:
`assert` failures, `raise ValueError(msg)`, and `IndexError` from
indexing a too-short shape or kernel-size list. -/
inductive Err where
  | assertionError
  | valueError (msg : String)
  | indexError
deriving DecidableEq, Repr

/-- `distribute_util.Distribute` values used by the source:
`auto()`, `broadcast()`, `split(axis)`. -/
inductive Distribute where
  | auto
  | broadcast
  | split (axis : Nat)
deriving DecidableEq, Repr

/-- An initializer configuration as resolved by the source:
`flow.constant_initializer` with an int literal (`constI`) or a float
literal of integral value (`constF`), `flow.zeros_initializer()`,
`flow.ones_initializer()`. Caller-supplied configurations are values of
this same type. -/
inductive Initializer where
  | constI (v : Int)
  | constF (v : Int)
  | zeros
  | ones
deriving DecidableEq, Repr

/-- `Union[int, List[int], Tuple[int]]` arguments (kernel_size, strides,
upsample's size). Python lists and tuples are merged: the source accepts
both via `isinstance(x, (list, tuple))`. -/
inductive ISize where
  | int (n : Int)
  | list (l : List Int)
deriving DecidableEq, Repr

/-- Externally visible side effects of a call, in program order:
`varCreated` for each `flow.get_variable`, `opBuilt t` for each operator
node registered into the graph (matmul, conv2d, bias_add, reshape,
transpose, constant, and the user ops built via `user_op_builder`). -/
inductive Event where
  | varCreated (name : String) (shape : List Int) (dtype : Dtype)
      (init : Initializer) (regularizer : Option Nat) (trainable : Bool)
      (modelName : Option String) (dist : Option Distribute)
  | opBuilt (opType : String)
deriving DecidableEq, Repr

/-- The graph-expression trees this file constructs and returns.  Operator
output shapes and dtypes are inferred by the external framework; the model
stores exactly the data the source passes in.  `act` is a concrete
activation callback used in witnesses (the embedding itself takes an
arbitrary callback function). -/
inductive Blob where
  | input (id : Nat) (shape : List Int) (dtype : Dtype)
  | var (name : String) (shape : List Int) (dtype : Dtype) (trainable : Bool)
      (dist : Option Distribute)
  | withDistribute (x : Blob) (d : Distribute)
  | constant (value : Int) (shape : List Int) (dtype : Dtype)
  | reshape (x : Blob) (newShape : List Int)
  | matmul (a b : Blob) (transposeB : Bool) (name : String)
  | biasAdd (x bias : Blob) (dataFormat : Option String) (name : String)
  | conv2dOp (x weight : Blob) (strides : ISize) (padding : String)
      (dataFormat : String) (dilationRate : Int) (groups : Int)
      (name : Option String)
  | transpose (x : Blob) (perm : List Int)
  | layerNormOp (name : String) (x : Blob) (ins outs : List String)
      (center scale : Bool) (beginNormAxis beginParamsAxis : Int)
  | layerNormGradOp (name : String) (dy x mean invVariance : Blob)
      (beginNormAxis : Int)
  | layerNormParamGradOp (name : String) (dy normalized gamma : Blob)
      (beginParamsAxis : Int) (outIdx : Nat)
  | normalizationOp (name : String) (x movingMean movingVariance gamma beta : Blob)
      (axis : Int) (training : Bool) (outs : List String)
  | upsampleOp (name : String) (x : Blob) (heightScale widthScale : Int)
      (dataFormat : String) (interpolation : String)
  | act (tag : Nat) (x : Blob) (name : String)
deriving DecidableEq, Repr

/-- The shape the source reads back from a blob (`inputs.shape`).  It is
only ever read from graph inputs, variables, distribute-wrapped variables,
constants and the flattening reshape in `dense`; for a reshape the source
reads index 1 of the stored target shape, whose `-1` wildcard (index 0) is
never consulted, so the stored target list is returned as-is.  Operator
outputs' shapes are framework-inferred and never read by this file; they
are modelled as `[]`. -/
def Blob.shape : Blob → List Int
  | .input _ s _ => s
  | .var _ s _ _ _ => s
  | .withDistribute x _ => x.shape
  | .constant _ s _ => s
  | .reshape _ s => s
  | _ => []

/-- The dtype the source reads back from a blob (`inputs.dtype`).
Structure-preserving operators keep their principal input's dtype. -/
def Blob.dtype : Blob → Dtype
  | .input _ _ d => d
  | .var _ _ d _ _ => d
  | .withDistribute x _ => x.dtype
  | .constant _ _ d => d
  | .reshape x _ => x.dtype
  | .matmul a _ _ _ => a.dtype
  | .biasAdd x _ _ _ => x.dtype
  | .conv2dOp x _ _ _ _ _ _ _ => x.dtype
  | .transpose x _ => x.dtype
  | .layerNormOp _ x _ _ _ _ _ _ => x.dtype
  | .layerNormGradOp _ _ x _ _ _ => x.dtype
  | .layerNormParamGradOp _ dy _ _ _ _ => dy.dtype
  | .normalizationOp _ x _ _ _ _ _ _ _ => x.dtype
  | .upsampleOp _ x _ _ _ _ => x.dtype
  | .act _ x _ => x.dtype

/-- The result of one layer call: the events it performed, in order, and
either the returned value or the exception raised.  Events that happened
before an exception are kept (Python side effects are not rolled back). -/
structure Trace (α : Type) where
  events : List Event
  result : Except Err α
deriving Repr

instance {ε α : Type} [DecidableEq ε] [DecidableEq α] : DecidableEq (Except ε α) := fun a b =>
  match a, b with
  | .error e, .error f => decidable_of_iff (e = f) (by simp)
  | .ok x, .ok y => decidable_of_iff (x = y) (by simp)
  | .error _, .ok _ => isFalse (by simp)
  | .ok _, .error _ => isFalse (by simp)

/-- Whether a call returned normally. -/
def resultOk {α : Type} : Except Err α → Bool
  | .ok _ => true
  | .error _ => false

/-- Whether an event is an operator-node construction (as opposed to a
variable registration). -/
def Event.isOp : Event → Bool
  | .opBuilt _ => true
  | _ => false

/-- Whether an event is a variable registration. -/
def Event.isVar : Event → Bool
  | .varCreated _ _ _ _ _ _ _ _ => true
  | _ => false

/-- Number of operator nodes built during a call. -/
def countOps (evs : List Event) : Nat :=
  (evs.filter Event.isOp).length

/-- Modelled from the spec: `id_util.UniqueStr` (external framework) returns
a fresh unique name with the given prefix.  Freshness is irrelevant to every
claim; it is modelled as a pure suffix. -/
def uniqueStr (p : String) : String := p ++ "0"

/-- Python's `str.upper()` on the ASCII strings the source compares
against, written directly over the character list so that it evaluates
inside the kernel. -/
def pyUpper (s : String) : String :=
  ⟨s.data.map fun c => if 'a' ≤ c ∧ c ≤ 'z' then Char.ofNat (c.toNat - 32) else c⟩

/-- Python's `l[i:]` slice on a list, with negative-index semantics. -/
def pySliceFrom (l : List Int) (i : Int) : List Int :=
  if 0 ≤ i then l.drop i.toNat
  else l.drop (max 0 ((l.length : Int) + i)).toNat

/-- `layers.dense`, source lines 67-118: everything up to and including the
optional bias add, i.e. the pre-activation value.  Mirrors the source in
program order: the rank assert; the flattening `flow.reshape` for inputs
with more than 2 axes (an operator node, built BEFORE the model-distribute
assertions); the two model-distribute assertions; the weight variable and
`flow.matmul`; the optional bias variable and `flow.nn.bias_add`. -/
def densePre (inputs : Blob) (units : Int) (useBias : Bool)
    (kernelInitializer biasInitializer : Option Initializer)
    (kernelRegularizer biasRegularizer : Option Nat)
    (trainable : Bool) (name : Option String)
    (modelDistribute : Distribute) : Trace Blob :=
  let inShape := inputs.shape
  let inNumAxes := inShape.length
  if ¬ 2 ≤ inNumAxes then ⟨[], .error .assertionError⟩ else
  let nameBase := name.getD (uniqueStr "Dense_")
  let ev0 := if 2 < inNumAxes then [Event.opBuilt "reshape"] else []
  let inputs2 :=
    if 2 < inNumAxes then
      Blob.reshape inputs [-1, inShape.getD (inShape.length - 1) 0]
    else inputs
  if ¬ (modelDistribute = .auto ∨ modelDistribute = .broadcast ∨
        modelDistribute = .split 0) then
    ⟨ev0, .error .assertionError⟩ else
  if modelDistribute = .split 0 ∧ ¬ inNumAxes = 2 then
    ⟨ev0, .error .assertionError⟩ else
  let wName := nameBase ++ "-weight"
  let wShape := [units, inputs2.shape.getD 1 0]
  let evW := Event.varCreated wName wShape inputs2.dtype
    (kernelInitializer.getD (.constI 0)) kernelRegularizer trainable
    (some "weight") (some modelDistribute)
  let weight := Blob.withDistribute
    (Blob.var wName wShape inputs2.dtype trainable (some modelDistribute))
    modelDistribute
  let out0 := Blob.matmul inputs2 weight true (nameBase ++ "_matmul")
  if useBias then
    let bName := nameBase ++ "-bias"
    let evB := Event.varCreated bName [units] inputs2.dtype
      (biasInitializer.getD (.constI 0)) biasRegularizer trainable
      (some "bias") (some modelDistribute)
    let bias := Blob.withDistribute
      (Blob.var bName [units] inputs2.dtype trainable (some modelDistribute))
      modelDistribute
    ⟨ev0 ++ [evW, Event.opBuilt "matmul", evB, Event.opBuilt "bias_add"],
     .ok (Blob.biasAdd out0 bias none (nameBase ++ "_bias_add"))⟩
  else
    ⟨ev0 ++ [evW, Event.opBuilt "matmul"], .ok out0⟩

/-- `layers.dense`, source lines 67-126: `densePre`, then the optional
activation callback (applied BEFORE the trailing reshape), then the trailing
`flow.reshape` back to the original leading axes for inputs with more than
2 axes. -/
def dense (inputs : Blob) (units : Int)
    (activation : Option (Blob → String → Blob)) (useBias : Bool)
    (kernelInitializer biasInitializer : Option Initializer)
    (kernelRegularizer biasRegularizer : Option Nat)
    (trainable : Bool) (name : Option String)
    (modelDistribute : Distribute) : Trace Blob :=
  match densePre inputs units useBias kernelInitializer biasInitializer
      kernelRegularizer biasRegularizer trainable name modelDistribute with
  | ⟨evs, .error e⟩ => ⟨evs, .error e⟩
  | ⟨evs, .ok out⟩ =>
    let inShape := inputs.shape
    let nameBase := name.getD (uniqueStr "Dense_")
    let out1 := match activation with
      | some f => f out (nameBase ++ "_activation")
      | none => out
    if 2 < inShape.length then
      ⟨evs ++ [Event.opBuilt "reshape"],
       .ok (Blob.reshape out1 (inShape.dropLast ++ [units]))⟩
    else ⟨evs, .ok out1⟩

/-- `layers.conv2d`, source lines 187-213: the argument validation performed
before any variable or operator is created.  Normalizes kernel_size, runs the
group-count assertions, dispatches on `data_format.upper()` and either raises
or returns the weight shape.  NHWC additionally indexes `kernel_size[0]` and
`kernel_size[1]`, which raises IndexError on a too-short list, as does
`inputs.shape[i]` on a low-rank input. -/
def conv2dChecked (shape : List Int) (filters : Int) (kernelSize : ISize)
    (dataFormat : String) (groups : Int) : Except Err (List Int) :=
  let ks : List Int := match kernelSize with
    | .int n => [n, n]
    | .list l => l
  if ¬ 0 < groups then .error .assertionError else
  if ¬ groups ≤ filters then .error .assertionError else
  if ¬ filters % groups = 0 then .error .assertionError else
  if pyUpper dataFormat = "NCHW" then
    match shape[1]? with
    | none => .error .indexError
    | some c =>
      if ¬ groups ≤ c then .error .assertionError else
      if ¬ c % groups = 0 then .error .assertionError else
      .ok ([filters, c / groups] ++ ks)
  else if pyUpper dataFormat = "NHWC" then
    if ¬ groups = 1 then .error .assertionError else
    match shape[3]? with
    | none => .error .indexError
    | some c =>
      if ¬ groups ≤ c then .error .assertionError else
      if ¬ c % groups = 0 then .error .assertionError else
      match ks[0]?, ks[1]? with
      | some k0, some k1 => .ok [filters, k0, k1, c / groups]
      | _, _ => .error .indexError
  else .error (.valueError "data_format must be in NCHW or NHWC")

/-- `layers.conv2d`, source lines 215-255: the build phase run once
validation has produced the weight shape.  Creates the weight variable,
builds the `flow.nn.conv2d` node (forwarding `padding` unchanged), then the
optional bias variable and `flow.nn.bias_add`, then applies the optional
activation callback. -/
def conv2dBuild (inputs : Blob) (filters : Int) (strides : ISize)
    (padding dataFormat : String) (dilationRate groups : Int)
    (activation : Option (Blob → String → Blob)) (useBias : Bool)
    (kernelInitializer biasInitializer : Option Initializer)
    (kernelRegularizer biasRegularizer : Option Nat)
    (trainable : Bool) (name weightName biasName : Option String)
    (weightShape : List Int) : Trace Blob :=
  let nameBase := name.getD (uniqueStr "Conv2D_")
  let wName := weightName.getD (nameBase ++ "-weight")
  let evW := Event.varCreated wName weightShape inputs.dtype
    (kernelInitializer.getD (.constI 0)) kernelRegularizer trainable
    (some "weight") none
  let weight := Blob.var wName weightShape inputs.dtype trainable none
  let out0 := Blob.conv2dOp inputs weight strides padding dataFormat
    dilationRate groups name
  let step1 : List Event × Blob :=
    if useBias then
      let bName := biasName.getD (nameBase ++ "-bias")
      let evB := Event.varCreated bName [filters] inputs.dtype
        (biasInitializer.getD (.constI 0)) biasRegularizer trainable
        (some "bias") none
      let bias := Blob.var bName [filters] inputs.dtype trainable none
      ([evB, Event.opBuilt "bias_add"],
       Blob.biasAdd out0 bias (some dataFormat) (nameBase ++ "-bias_add"))
    else ([], out0)
  let out2 := match activation with
    | some f => f step1.2 (nameBase ++ "-activation")
    | none => step1.2
  ⟨[evW, Event.opBuilt "conv2d"] ++ step1.1, .ok out2⟩

/-- `layers.conv2d`, source lines 187-255: validation then build. -/
def conv2d (inputs : Blob) (filters : Int) (kernelSize strides : ISize)
    (padding dataFormat : String) (dilationRate groups : Int)
    (activation : Option (Blob → String → Blob)) (useBias : Bool)
    (kernelInitializer biasInitializer : Option Initializer)
    (kernelRegularizer biasRegularizer : Option Nat)
    (trainable : Bool) (name weightName biasName : Option String) : Trace Blob :=
  match conv2dChecked inputs.shape filters kernelSize dataFormat groups with
  | .error e => ⟨[], .error e⟩
  | .ok weightShape =>
    conv2dBuild inputs filters strides padding dataFormat dilationRate groups
      activation useBias kernelInitializer biasInitializer kernelRegularizer
      biasRegularizer trainable name weightName biasName weightShape

/-- `layers.layer_norm`, source lines 284-324.  Builds exactly one user op
(`layer_norm`).  `trainable` is forced to False when both `center` and
`scale` are False; the parameter shape is the Python slice
`inputs.shape[begin_params_axis:]`; beta/gamma variables are registered when
`center`/`scale` hold and wired in as op inputs, with an extra `normalized`
output when `scale` holds.  The float attribute `epsilon` is forwarded to
the framework unread and is not modelled. -/
def layerNorm (inputs : Blob) (center scale trainable : Bool)
    (beginNormAxis beginParamsAxis : Int) (name : Option String) : Trace Blob :=
  let nm := name.getD (uniqueStr "LayerNorm_")
  let trainable2 := if center = false ∧ scale = false then false else trainable
  let paramShape := pySliceFrom inputs.shape beginParamsAxis
  let stepB : List Event × List String :=
    if center then
      ([Event.varCreated (nm ++ "-beta") paramShape inputs.dtype (.constF 0)
          none trainable2 (some "beta") (some .broadcast)], ["beta"])
    else ([], [])
  let stepG : List Event × List String × List String :=
    if scale then
      ([Event.varCreated (nm ++ "-gamma") paramShape inputs.dtype (.constF 1)
          none trainable2 (some "gamma") (some .broadcast)],
       ["gamma"], ["normalized"])
    else ([], [], [])
  let outs := ["y", "mean", "inv_variance"] ++ stepG.2.2
  let blob := Blob.layerNormOp nm inputs (["x"] ++ stepB.2 ++ stepG.2.1) outs
    center scale beginNormAxis beginParamsAxis
  ⟨stepB.1 ++ stepG.1 ++ [Event.opBuilt "layer_norm"], .ok blob⟩

/-- `layers.layer_norm_grad`, source lines 349-361.  Builds exactly one
user op (`layer_norm_grad`) and returns its `dx` output.  The float
attribute `epsilon` (fixed 1e-5) is forwarded unread and not modelled. -/
def layerNormGrad (dy x mean invVariance : Blob) (beginNormAxis : Int)
    (name : Option String) : Trace Blob :=
  let nm := name.getD (uniqueStr "LayerNormGrad_")
  ⟨[Event.opBuilt "layer_norm_grad"],
   .ok (Blob.layerNormGradOp nm dy x mean invVariance beginNormAxis)⟩

/-- `layers.layer_norm_param_grad`, source lines 387-403.  Builds exactly
one user op (`layer_norm_param_grad`) and returns its first three outputs
(`normalized_diff`, `beta_diff`, `gamma_diff`), dropping `reduce_buf`. -/
def layerNormParamGrad (dy norm gamma : Blob) (beginParamsAxis : Int)
    (name : Option String) : Trace (Blob × Blob × Blob) :=
  let nm := name.getD (uniqueStr "LayerNormGrad_")
  ⟨[Event.opBuilt "layer_norm_param_grad"],
   .ok (Blob.layerNormParamGradOp nm dy norm gamma beginParamsAxis 0,
        Blob.layerNormParamGradOp nm dy norm gamma beginParamsAxis 1,
        Blob.layerNormParamGradOp nm dy norm gamma beginParamsAxis 2)⟩

/-- `layers.batch_normalization`, source lines 449-522.  `funcTrainable`
models `flow.current_global_function_desc().IsTrainable()` (an external
runtime query).  In program order: the axis-range assert; negative-axis
normalization; parameter shape `[inputs.shape[axis]]`; fp16 dtype widening;
forcing `training` to False when the enclosing function or this layer is not
trainable; beta and gamma (variables or `flow.constant` nodes), the
moving_mean and moving_variance variables (`trainable=False` literally);
finally one `normalization` user op, given outputs `mean`/`inv_variance`
exactly when `trainable and training` after the forcing.  Float attributes
`momentum` and `epsilon` are forwarded unread and not modelled. -/
def batchNormalization (funcTrainable : Bool) (inputs : Blob) (axis : Int)
    (center scale : Bool)
    (betaInitializer gammaInitializer : Option Initializer)
    (betaRegularizer gammaRegularizer : Option Nat)
    (movingMeanInitializer movingVarianceInitializer : Option Initializer)
    (trainable training : Bool) (name : Option String) : Trace Blob :=
  let n : Int := inputs.shape.length
  if ¬ (-n ≤ axis ∧ axis < n) then ⟨[], .error .assertionError⟩ else
  let axis2 := if axis < 0 then axis + n else axis
  let paramsShape := [inputs.shape.getD axis2.toNat 0]
  let paramsDtype := if inputs.dtype = .float16 then .float32 else inputs.dtype
  let training2 := if ¬ funcTrainable ∨ ¬ trainable then false else training
  let nm := name.getD (uniqueStr "BatchNorm_")
  let stepBeta : List Event × Blob :=
    if center then
      ([Event.varCreated (nm ++ "-beta") paramsShape paramsDtype
          (betaInitializer.getD .zeros) betaRegularizer trainable none
          (some .broadcast)],
       Blob.var (nm ++ "-beta") paramsShape paramsDtype trainable
         (some .broadcast))
    else ([Event.opBuilt "constant"], Blob.constant 0 paramsShape paramsDtype)
  let stepGamma : List Event × Blob :=
    if scale then
      ([Event.varCreated (nm ++ "-gamma") paramsShape paramsDtype
          (gammaInitializer.getD .ones) gammaRegularizer trainable none
          (some .broadcast)],
       Blob.var (nm ++ "-gamma") paramsShape paramsDtype trainable
         (some .broadcast))
    else ([Event.opBuilt "constant"], Blob.constant 1 paramsShape paramsDtype)
  let evMean := Event.varCreated (nm ++ "-moving_mean") paramsShape paramsDtype
    (movingMeanInitializer.getD .zeros) none false none (some .broadcast)
  let movingMean := Blob.var (nm ++ "-moving_mean") paramsShape paramsDtype
    false (some .broadcast)
  let evVar := Event.varCreated (nm ++ "-moving_variance") paramsShape
    paramsDtype (movingVarianceInitializer.getD .ones) none false none
    (some .broadcast)
  let movingVariance := Blob.var (nm ++ "-moving_variance") paramsShape
    paramsDtype false (some .broadcast)
  let outs := if trainable ∧ training2 then ["y", "mean", "inv_variance"]
    else ["y"]
  let blob := Blob.normalizationOp nm inputs movingMean movingVariance
    stepGamma.2 stepBeta.2 axis2 training2 outs
  ⟨stepBeta.1 ++ stepGamma.1 ++ [evMean, evVar, Event.opBuilt "normalization"],
   .ok blob⟩

/-- `layers.upsample_2d`, source lines 527-568.  In program order: size
normalization (the `isinstance`/length-2 asserts), the interpolation
ValueError, the data-format ValueError, then (only after all validation)
the optional NHWC pre-transpose node, the `upsample` user op, and the
optional NHWC post-transpose node.  `float(height_scale)` conversion is a
framework-facing cast and the scales are modelled by their integral
values. -/
def upsample (x : Blob) (size : ISize) (dataFormat : String)
    (interpolation : String) (name : Option String) : Trace Blob :=
  let nm := name.getD (uniqueStr "Upsample2D_")
  let scales : Except Err (Int × Int) := match size with
    | .int n => .ok (n, n)
    | .list l =>
      if l.length = 2 then .ok (l.getD 0 0, l.getD 1 0)
      else .error .assertionError
  match scales with
  | .error e => ⟨[], .error e⟩
  | .ok hw =>
    if ¬ interpolation = "nearest" ∧ ¬ interpolation = "bilinear" then
      ⟨[], .error (.valueError "interpolation must be \"nearest\" or \"bilinear\".")⟩
    else if ¬ pyUpper dataFormat = "NCHW" ∧ ¬ pyUpper dataFormat = "NHWC" then
      ⟨[], .error (.valueError "data_format must be \"NHWC\" or \"NCHW\".")⟩
    else
      let needTranspose := pyUpper dataFormat = "NHWC"
      let step1 : List Event × Blob :=
        if needTranspose then
          ([Event.opBuilt "transpose"], Blob.transpose x [0, 3, 1, 2])
        else ([], x)
      let y := Blob.upsampleOp nm step1.2 hw.1 hw.2 "channels_first"
        interpolation
      let step2 : List Event × Blob :=
        if needTranspose then
          ([Event.opBuilt "transpose"], Blob.transpose y [0, 2, 3, 1])
        else ([], y)
      ⟨step1.1 ++ [Event.opBuilt "upsample"] ++ step2.1, .ok step2.2⟩

/-- The file's exported surface: each `@oneflow_export("...")` decorator in
source order, paired with the Python function name it decorates.  Note the
last entry: the function `upsample` is exported as `layers.upsample_2d`. -/
def exportTable : List (String × String) :=
  [("layers.dense", "dense"),
   ("layers.conv2d", "conv2d"),
   ("layers.layer_norm", "layer_norm"),
   ("layers.layer_norm_grad", "layer_norm_grad"),
   ("layers.layer_norm_param_grad", "layer_norm_param_grad"),
   ("layers.batch_normalization", "batch_normalization"),
   ("layers.upsample_2d", "upsample")]

/-- The exported surface as the specification sentence describes it (a
refinement target, written from the spec's words, to be compared with
`exportTable`): the seven function names, "each exported under that name
(layers.<name>)". -/
def claimedExportTable : List (String × String) :=
  [("layers.dense", "dense"),
   ("layers.conv2d", "conv2d"),
   ("layers.layer_norm", "layer_norm"),
   ("layers.layer_norm_grad", "layer_norm_grad"),
   ("layers.layer_norm_param_grad", "layer_norm_param_grad"),
   ("layers.batch_normalization", "batch_normalization"),
   ("layers.upsample", "upsample")]

/-- Replace the padding string of the convolution node on the result spine
(the node itself, or the convolution input of the bias-add wrapped around
it).  Used to state that `conv2d` forwards `padding` unchanged. -/
def Blob.setTopPad (p : String) : Blob → Blob
  | .conv2dOp x w s _ df d g nm => .conv2dOp x w s p df d g nm
  | .biasAdd x b df nm => .biasAdd (x.setTopPad p) b df nm
  | b => b

/-- The `training` attribute of a `normalization` user-op node. -/
def Blob.bnTraining : Blob → Option Bool
  | .normalizationOp _ _ _ _ _ _ _ t _ => some t
  | _ => none

/-- The output list of a `normalization` user-op node. -/
def Blob.bnOuts : Blob → Option (List String)
  | .normalizationOp _ _ _ _ _ _ _ _ outs => some outs
  | _ => none

/-- The `axis` attribute of a `normalization` user-op node. -/
def Blob.bnAxis : Blob → Option Int
  | .normalizationOp _ _ _ _ _ _ a _ _ => some a
  | _ => none

/-- The `beta` input of a `normalization` user-op node. -/
def Blob.bnBeta : Blob → Option Blob
  | .normalizationOp _ _ _ _ _ beta _ _ _ => some beta
  | _ => none

/-- The `gamma` input of a `normalization` user-op node. -/
def Blob.bnGamma : Blob → Option Blob
  | .normalizationOp _ _ _ _ gamma _ _ _ _ => some gamma
  | _ => none

/-- The `moving_mean` input of a `normalization` user-op node. -/
def Blob.bnMovingMean : Blob → Option Blob
  | .normalizationOp _ _ mm _ _ _ _ _ _ => some mm
  | _ => none

/-- The `moving_variance` input of a `normalization` user-op node. -/
def Blob.bnMovingVariance : Blob → Option Blob
  | .normalizationOp _ _ _ mv _ _ _ _ _ => some mv
  | _ => none

/-- Whether a result is a raised `ValueError`. -/
def isValueError {α : Type} : Except Err α → Bool
  | .error (.valueError _) => true
  | _ => false

/-- The group-count constraints of `conv2d` as the claim lists them:
`groups` positive, `groups ≤ filters`, `filters` divisible by `groups`, and
additionally for uppercase-NCHW `groups` bounded by and dividing the input
channel count `inputs.shape[1]`, while for uppercase-NHWC `groups = 1`. -/
def groupsOk (shape : List Int) (filters groups : Int)
    (dataFormat : String) : Bool :=
  decide (0 < groups) && decide (groups ≤ filters) &&
  decide (filters % groups = 0) &&
  (if pyUpper dataFormat = "NCHW" then
     match shape[1]? with
     | some c => decide (groups ≤ c) && decide (c % groups = 0)
     | none => false
   else if pyUpper dataFormat = "NHWC" then decide (groups = 1)
   else true)

/-- The shape of `upsample`'s `size` argument that its assertions accept:
an int, or a list/tuple of length 2. -/
def sizeOk : ISize → Bool
  | .int _ => true
  | .list l => decide (l.length = 2)

/-- A concrete 3-axis graph input used in witnesses and counterexamples. -/
def inputBlob3 : Blob := .input 0 [2, 3, 4] .float32

/-- A concrete 4-axis graph input used in witnesses and counterexamples. -/
def inputBlob4 : Blob := .input 0 [1, 4, 5, 5] .float32

/-- A concrete activation callback used in witnesses and counterexamples:
wraps its argument in an `act` node, as a real activation would wrap it in
its own operator node. -/
def actCallback : Blob → String → Blob := fun b nm => Blob.act 7 b nm

/-- C1: the claim states that a `conv2d` call whose padding string is neither
"VALID" nor "SAME" surfaces an immediate argument error during this file's
validation.  Counterexample: a call with padding "GARBAGE" (all other
arguments valid) raises nothing in this file — it returns normally, having
created a weight variable and built two operator nodes. -/
theorem c1_counterexample :
    resultOk (conv2d inputBlob4 4 (.int 3) (.int 1) "GARBAGE" "NCHW" 1 1 none
      true none none none none true (some "C") none none).result = true ∧
    countOps (conv2d inputBlob4 4 (.int 3) (.int 1) "GARBAGE" "NCHW" 1 1 none
      true none none none none true (some "C") none none).events = 2 := by
  decide

/-- C1 (amended): `conv2d` performs no padding validation at all; the
padding string is forwarded unchanged into the convolution operator node,
and calls differing only in padding are otherwise identical (here stated
with the activation callback absent, since an arbitrary callback could
itself inspect the node). -/
theorem c1_padding_passthrough (inputs : Blob) (filters : Int)
    (kernelSize strides : ISize) (padding dataFormat : String)
    (dilationRate groups : Int) (useBias : Bool)
    (kI bI : Option Initializer) (kR bR : Option Nat) (trainable : Bool)
    (name weightName biasName : Option String) :
    conv2d inputs filters kernelSize strides padding dataFormat dilationRate
        groups none useBias kI bI kR bR trainable name weightName biasName =
      ⟨(conv2d inputs filters kernelSize strides "SAME" dataFormat
          dilationRate groups none useBias kI bI kR bR trainable name
          weightName biasName).events,
       (conv2d inputs filters kernelSize strides "SAME" dataFormat
          dilationRate groups none useBias kI bI kR bR trainable name
          weightName biasName).result.map (Blob.setTopPad padding)⟩ := by
  unfold conv2d
  cases conv2dChecked inputs.shape filters kernelSize dataFormat groups with
  | error e => rfl
  | ok ws =>
    unfold conv2dBuild
    by_cases h : useBias <;> simp [h, Blob.setTopPad, Except.map]

/-- C4: the claim states every function is exported as `layers.<function
name>`; counterexample: there is no export named "layers.upsample" — the
`upsample` function is exported as "layers.upsample_2d", so the exported
surface differs from the claimed one. -/
theorem c4_counterexample :
    exportTable ≠ claimedExportTable ∧
    (exportTable.map Prod.fst).contains "layers.upsample" = false ∧
    (exportTable.map Prod.fst).contains "layers.upsample_2d" = true := by
  decide

/-- C4 (amended): the exported surface is exactly the claimed seven
functions under `layers.<name>`, except that `upsample` is exported under
the name "layers.upsample_2d". -/
theorem c4_export_surface :
    exportTable =
      claimedExportTable.take 6 ++ [("layers.upsample_2d", "upsample")] := by
  decide

/-- Helper: when `densePre` raises, the events so far are either nothing or
exactly the flattening reshape node (built, for inputs with more than 2
axes, before the model-distribute assertions). -/
theorem densePre_error (inputs : Blob) (units : Int) (useBias : Bool)
    (kI bI : Option Initializer) (kR bR : Option Nat) (trainable : Bool)
    (name : Option String) (dist : Distribute) (evs : List Event) (e : Err)
    (hd : densePre inputs units useBias kI bI kR bR trainable name dist
        = ⟨evs, .error e⟩) :
    evs = [] ∨ evs = [Event.opBuilt "reshape"] := by
  by_cases h1 : 2 ≤ (Blob.shape inputs).length
  · by_cases h2 : dist = Distribute.auto ∨ dist = Distribute.broadcast ∨
        dist = Distribute.split 0
    · by_cases h3 : dist = Distribute.split 0 ∧ ¬ (Blob.shape inputs).length = 2
      · by_cases h4 : 2 < (Blob.shape inputs).length <;>
          simp [densePre, h1, h2, h3, h4, Trace.mk.injEq] at hd <;>
          simp [hd.1]
      · exfalso
        by_cases h4 : 2 < (Blob.shape inputs).length <;>
          by_cases h5 : useBias <;>
          simp [densePre, h1, h2, h3, h4, h5, Trace.mk.injEq] at hd
    · by_cases h4 : 2 < (Blob.shape inputs).length <;>
        simp [densePre, h1, h2, h4, Trace.mk.injEq] at hd <;>
        simp [hd.1]
  · simp [densePre, h1, Trace.mk.injEq] at hd
    simp [hd.1]

/-- Helper: the build phase of `conv2d` never raises. -/
theorem conv2dBuild_ok (inputs : Blob) (filters : Int) (strides : ISize)
    (padding dataFormat : String) (dilationRate groups : Int)
    (activation : Option (Blob → String → Blob)) (useBias : Bool)
    (kI bI : Option Initializer) (kR bR : Option Nat) (trainable : Bool)
    (name wN bN : Option String) (ws : List Int) :
    resultOk (conv2dBuild inputs filters strides padding dataFormat
      dilationRate groups activation useBias kI bI kR bR trainable name
      wN bN ws).result = true := rfl

/-- C2: the claim states that no operator node has been built when a
validation error surfaces, in particular for `dense` failing its
model-distribute assertion on an input with more than 2 axes.
Counterexample: exactly that call (3-axis input, `model_distribute =
split(0)`, so the line-81 assertion `in_num_axes == 2` fails) has already
built the flattening reshape operator node when the assertion fires. -/
theorem c2_counterexample :
    (dense inputBlob3 5 none true none none none none true (some "D")
        (.split 0)).result = Except.error Err.assertionError ∧
    (dense inputBlob3 5 none true none none none none true (some "D")
        (.split 0)).events = [Event.opBuilt "reshape"] := by
  decide

/-- C2 (amended): when a validation error surfaces in `dense`, `conv2d`,
`batch_normalization` or `upsample`, no parameter variable has been created,
and no operator node has been built either — except that `dense` called on
an input with more than 2 axes has already built its flattening reshape node
before the model-distribute assertions run. -/
theorem c2_no_partial_failure :
    (∀ (inputs : Blob) (units : Int)
        (activation : Option (Blob → String → Blob)) (useBias : Bool)
        (kI bI : Option Initializer) (kR bR : Option Nat) (trainable : Bool)
        (name : Option String) (dist : Distribute),
      resultOk (dense inputs units activation useBias kI bI kR bR trainable
          name dist).result = false →
      (dense inputs units activation useBias kI bI kR bR trainable name
          dist).events.filter Event.isVar = [] ∧
      ((dense inputs units activation useBias kI bI kR bR trainable name
          dist).events = [] ∨
       (dense inputs units activation useBias kI bI kR bR trainable name
          dist).events = [Event.opBuilt "reshape"])) ∧
    (∀ (inputs : Blob) (filters : Int) (kernelSize strides : ISize)
        (padding dataFormat : String) (dilationRate groups : Int)
        (activation : Option (Blob → String → Blob)) (useBias : Bool)
        (kI bI : Option Initializer) (kR bR : Option Nat) (trainable : Bool)
        (name wN bN : Option String),
      resultOk (conv2d inputs filters kernelSize strides padding dataFormat
          dilationRate groups activation useBias kI bI kR bR trainable name
          wN bN).result = false →
      (conv2d inputs filters kernelSize strides padding dataFormat
          dilationRate groups activation useBias kI bI kR bR trainable name
          wN bN).events = []) ∧
    (∀ (funcTrainable : Bool) (inputs : Blob) (axis : Int)
        (center scale : Bool) (bI gI : Option Initializer)
        (bR gR : Option Nat) (mmI mvI : Option Initializer)
        (trainable training : Bool) (name : Option String),
      resultOk (batchNormalization funcTrainable inputs axis center scale
          bI gI bR gR mmI mvI trainable training name).result = false →
      (batchNormalization funcTrainable inputs axis center scale bI gI bR gR
          mmI mvI trainable training name).events = []) ∧
    (∀ (x : Blob) (size : ISize) (dataFormat interpolation : String)
        (name : Option String),
      resultOk (upsample x size dataFormat interpolation name).result
          = false →
      (upsample x size dataFormat interpolation name).events = []) := by
  refine ⟨?_, ?_, ?_, ?_⟩
  · intro inputs units activation useBias kI bI kR bR trainable name dist h
    rcases hd : densePre inputs units useBias kI bI kR bR trainable name dist
      with ⟨evs, res⟩
    cases res with
    | error e =>
      have hevs := densePre_error inputs units useBias kI bI kR bR trainable
        name dist evs e hd
      have hde : dense inputs units activation useBias kI bI kR bR trainable
          name dist = ⟨evs, .error e⟩ := by
        unfold dense; rw [hd]
      rcases hevs with rfl | rfl <;> rw [hde] <;> simp [Event.isVar]
    | ok out =>
      exfalso
      unfold dense at h
      rw [hd] at h
      by_cases h4 : 2 < (Blob.shape inputs).length <;>
        simp [h4, resultOk] at h
  · intro inputs filters kernelSize strides padding dataFormat dilationRate
      groups activation useBias kI bI kR bR trainable name wN bN h
    unfold conv2d at h ⊢
    cases hc : conv2dChecked (Blob.shape inputs) filters kernelSize dataFormat
        groups with
    | error e => rfl
    | ok ws =>
      rw [hc] at h
      have hok := conv2dBuild_ok inputs filters strides padding dataFormat
        dilationRate groups activation useBias kI bI kR bR trainable name
        wN bN ws
      simp [hok] at h
  · intro funcTrainable inputs axis center scale bI gI bR gR mmI mvI
      trainable training name h
    by_cases h1 : -((Blob.shape inputs).length : Int) ≤ axis ∧
        axis < (Blob.shape inputs).length
    · exfalso
      simp [batchNormalization, h1, resultOk] at h
    · simp [batchNormalization, h1]
  · intro x size dataFormat interpolation name h
    cases size with
    | int n =>
      by_cases h1 : ¬ interpolation = "nearest" ∧
          ¬ interpolation = "bilinear"
      · simp [upsample, h1]
      · by_cases h2 : ¬ pyUpper dataFormat = "NCHW" ∧
            ¬ pyUpper dataFormat = "NHWC"
        · simp [upsample, h1, h2]
        · exfalso
          rcases not_and_or.mp h2 with hA | hB
          · simp [upsample, h1, h2, not_not.mp hA, resultOk] at h
          · simp [upsample, h1, h2, not_not.mp hB, resultOk] at h
    | list l =>
      by_cases h0 : l.length = 2
      · by_cases h1 : ¬ interpolation = "nearest" ∧
            ¬ interpolation = "bilinear"
        · simp [upsample, h0, h1]
        · by_cases h2 : ¬ pyUpper dataFormat = "NCHW" ∧
              ¬ pyUpper dataFormat = "NHWC"
          · simp [upsample, h0, h1, h2]
          · exfalso
            rcases not_and_or.mp h2 with hA | hB
            · simp [upsample, h0, h1, h2, not_not.mp hA, resultOk] at h
            · simp [upsample, h0, h1, h2, not_not.mp hB, resultOk] at h
      · simp [upsample, h0]

/-- C2 witness: the amended theorem applied to a concrete failing `conv2d`
call (zero groups). -/
theorem c2_witness :
    (conv2d inputBlob4 4 (.int 3) (.int 1) "VALID" "NCHW" 1 0 none true none
        none none none true (some "C") none none).events = [] :=
  c2_no_partial_failure.2.1 inputBlob4 4 (.int 3) (.int 1) "VALID" "NCHW" 1 0
    none true none none none none true (some "C") none none (by decide)

/-- Helper: op counting distributes over event-list concatenation. -/
theorem countOps_append (a b : List Event) :
    countOps (a ++ b) = countOps a + countOps b := by
  simp [countOps, List.filter_append]

/-- Helper: the pre-activation phase of `dense` builds at most three
operator nodes (reshape, matmul, bias_add). -/
theorem densePre_countOps (inputs : Blob) (units : Int) (useBias : Bool)
    (kI bI : Option Initializer) (kR bR : Option Nat) (trainable : Bool)
    (name : Option String) (dist : Distribute) :
    countOps (densePre inputs units useBias kI bI kR bR trainable name
      dist).events ≤ 3 := by
  by_cases h1 : 2 ≤ (Blob.shape inputs).length <;>
  by_cases h2 : dist = Distribute.auto ∨ dist = Distribute.broadcast ∨
      dist = Distribute.split 0 <;>
  by_cases h3 : dist = Distribute.split 0 ∧ ¬ (Blob.shape inputs).length = 2 <;>
  by_cases h4 : 2 < (Blob.shape inputs).length <;>
  by_cases h5 : useBias <;>
  simp [densePre, h1, h2, h3, h4, h5, countOps, Event.isOp]

/-- C3: the claim states every function builds at most two operator nodes
per call, explicitly including `dense` on an input with more than 2 axes
with bias and activation.  Counterexample: exactly that call builds four
operator nodes (flattening reshape, matmul, bias_add, trailing reshape). -/
theorem c3_counterexample :
    countOps (dense inputBlob3 5 (some actCallback) true none none none none
      true (some "D") .broadcast).events = 4 := by decide

/-- C3 (amended): each call builds a bounded number of operator nodes, but
the bound is not two for every function: `conv2d`, `layer_norm`,
`layer_norm_grad` and `layer_norm_param_grad` build at most two;
`batch_normalization` at most three (counting the constant nodes used when
`center` or `scale` is False); `upsample` at most three (counting the NHWC
transposes); `dense` at most four (counting its two reshapes for inputs
with more than 2 axes). -/
theorem c3_op_bounds :
    (∀ (inputs : Blob) (units : Int)
        (activation : Option (Blob → String → Blob)) (useBias : Bool)
        (kI bI : Option Initializer) (kR bR : Option Nat) (trainable : Bool)
        (name : Option String) (dist : Distribute),
      countOps (dense inputs units activation useBias kI bI kR bR trainable
        name dist).events ≤ 4) ∧
    (∀ (inputs : Blob) (filters : Int) (kernelSize strides : ISize)
        (padding dataFormat : String) (dilationRate groups : Int)
        (activation : Option (Blob → String → Blob)) (useBias : Bool)
        (kI bI : Option Initializer) (kR bR : Option Nat) (trainable : Bool)
        (name wN bN : Option String),
      countOps (conv2d inputs filters kernelSize strides padding dataFormat
        dilationRate groups activation useBias kI bI kR bR trainable name
        wN bN).events ≤ 2) ∧
    (∀ (inputs : Blob) (center scale trainable : Bool)
        (beginNormAxis beginParamsAxis : Int) (name : Option String),
      countOps (layerNorm inputs center scale trainable beginNormAxis
        beginParamsAxis name).events = 1) ∧
    (∀ (dy x mean invVariance : Blob) (beginNormAxis : Int)
        (name : Option String),
      countOps (layerNormGrad dy x mean invVariance beginNormAxis
        name).events = 1) ∧
    (∀ (dy norm gamma : Blob) (beginParamsAxis : Int) (name : Option String),
      countOps (layerNormParamGrad dy norm gamma beginParamsAxis
        name).events = 1) ∧
    (∀ (funcTrainable : Bool) (inputs : Blob) (axis : Int)
        (center scale : Bool) (bI gI : Option Initializer)
        (bR gR : Option Nat) (mmI mvI : Option Initializer)
        (trainable training : Bool) (name : Option String),
      countOps (batchNormalization funcTrainable inputs axis center scale
        bI gI bR gR mmI mvI trainable training name).events ≤ 3) ∧
    (∀ (x : Blob) (size : ISize) (dataFormat interpolation : String)
        (name : Option String),
      countOps (upsample x size dataFormat interpolation name).events ≤ 3) := by
  refine ⟨?_, ?_, ?_, ?_, ?_, ?_, ?_⟩
  · intro inputs units activation useBias kI bI kR bR trainable name dist
    have hb := densePre_countOps inputs units useBias kI bI kR bR trainable
      name dist
    rcases hd : densePre inputs units useBias kI bI kR bR trainable name dist
      with ⟨evs, res⟩
    rw [hd] at hb
    cases res with
    | error e =>
      have hde : dense inputs units activation useBias kI bI kR bR trainable
          name dist = ⟨evs, .error e⟩ := by
        unfold dense; rw [hd]
      rw [hde]
      exact le_trans hb (by omega)
    | ok out =>
      unfold dense
      rw [hd]
      by_cases h4 : 2 < (Blob.shape inputs).length <;>
        simp only [h4, if_true, if_false, reduceIte] <;>
        simp [countOps_append, countOps, Event.isOp] at hb ⊢ <;>
        omega
  · intro inputs filters kernelSize strides padding dataFormat dilationRate
      groups activation useBias kI bI kR bR trainable name wN bN
    unfold conv2d
    cases hc : conv2dChecked (Blob.shape inputs) filters kernelSize dataFormat
        groups with
    | error e => simp [countOps]
    | ok ws =>
      unfold conv2dBuild
      cases activation <;> by_cases h : useBias <;>
        simp [h, countOps, Event.isOp]
  · intro inputs center scale trainable beginNormAxis beginParamsAxis name
    unfold layerNorm
    by_cases hc : center <;> by_cases hs : scale <;>
      simp [hc, hs, countOps, Event.isOp]
  · intro dy x mean invVariance beginNormAxis name
    simp [layerNormGrad, countOps, Event.isOp]
  · intro dy norm gamma beginParamsAxis name
    simp [layerNormParamGrad, countOps, Event.isOp]
  · intro funcTrainable inputs axis center scale bI gI bR gR mmI mvI
      trainable training name
    unfold batchNormalization
    by_cases h1 : -((Blob.shape inputs).length : Int) ≤ axis ∧
        axis < (Blob.shape inputs).length <;>
      by_cases hc : center <;> by_cases hs : scale <;>
      simp [h1, hc, hs, countOps, Event.isOp]
  · intro x size dataFormat interpolation name
    unfold upsample
    cases size with
    | int n =>
      by_cases h1 : ¬ interpolation = "nearest" ∧
          ¬ interpolation = "bilinear" <;>
      by_cases h2 : ¬ pyUpper dataFormat = "NCHW" ∧
          ¬ pyUpper dataFormat = "NHWC" <;>
      by_cases h3 : pyUpper dataFormat = "NHWC" <;>
      by_cases h4 : pyUpper dataFormat = "NCHW" <;>
        simp [h1, h2, h3, h4, countOps, Event.isOp]
    | list l =>
      by_cases h0 : l.length = 2 <;>
      by_cases h1 : ¬ interpolation = "nearest" ∧
          ¬ interpolation = "bilinear" <;>
      by_cases h2 : ¬ pyUpper dataFormat = "NCHW" ∧
          ¬ pyUpper dataFormat = "NHWC" <;>
      by_cases h3 : pyUpper dataFormat = "NHWC" <;>
      by_cases h4 : pyUpper dataFormat = "NCHW" <;>
        simp [h0, h1, h2, h3, h4, countOps, Event.isOp]

/-- Helper: when the uppercase data format is recognized, `conv2d`'s
validation never raises a ValueError (its failures there are assertion or
index errors). -/
theorem conv2dChecked_no_valueError (shape : List Int) (filters : Int)
    (kernelSize : ISize) (dataFormat : String) (groups : Int)
    (h : pyUpper dataFormat = "NCHW" ∨ pyUpper dataFormat = "NHWC")
    (m : String) :
    conv2dChecked shape filters kernelSize dataFormat groups
      ≠ Except.error (.valueError m) := by
  rcases h with h | h <;>
    unfold conv2dChecked <;> simp only [h] <;>
    (repeat' split) <;> simp_all

/-- C5: the claim states that every `conv2d` call with an unrecognized
uppercase data format raises ValueError.  Counterexample: with `groups = 0`
and data format "XHWC" the call raises AssertionError from the group-count
check, which runs first — no ValueError is raised. -/
theorem c5_counterexample :
    (conv2d inputBlob4 4 (.int 3) (.int 1) "VALID" "XHWC" 1 0 none true none
        none none none true (some "C") none none).result
      = Except.error Err.assertionError ∧
    isValueError (conv2d inputBlob4 4 (.int 3) (.int 1) "VALID" "XHWC" 1 0
        none true none none none none true (some "C") none none).result
      = false := by decide

/-- C5 (amended): provided the group-count assertions pass, a `conv2d` call
whose uppercase data format is neither "NCHW" nor "NHWC" raises the
data-format ValueError before creating any variable or operator node (when
those earlier assertions fail the call instead surfaces their
AssertionError); and for uppercase "NCHW" or "NHWC" no data-format
ValueError is ever raised. -/
theorem c5_data_format_validation :
    (∀ (inputs : Blob) (filters : Int) (kernelSize strides : ISize)
        (padding dataFormat : String) (dilationRate groups : Int)
        (activation : Option (Blob → String → Blob)) (useBias : Bool)
        (kI bI : Option Initializer) (kR bR : Option Nat) (trainable : Bool)
        (name wN bN : Option String),
      0 < groups → groups ≤ filters → filters % groups = 0 →
      ¬ pyUpper dataFormat = "NCHW" → ¬ pyUpper dataFormat = "NHWC" →
      (conv2d inputs filters kernelSize strides padding dataFormat
          dilationRate groups activation useBias kI bI kR bR trainable name
          wN bN).result
        = Except.error (.valueError "data_format must be in NCHW or NHWC") ∧
      (conv2d inputs filters kernelSize strides padding dataFormat
          dilationRate groups activation useBias kI bI kR bR trainable name
          wN bN).events = []) ∧
    (∀ (inputs : Blob) (filters : Int) (kernelSize strides : ISize)
        (padding dataFormat : String) (dilationRate groups : Int)
        (activation : Option (Blob → String → Blob)) (useBias : Bool)
        (kI bI : Option Initializer) (kR bR : Option Nat) (trainable : Bool)
        (name wN bN : Option String),
      (pyUpper dataFormat = "NCHW" ∨ pyUpper dataFormat = "NHWC") →
      isValueError (conv2d inputs filters kernelSize strides padding
          dataFormat dilationRate groups activation useBias kI bI kR bR
          trainable name wN bN).result = false) := by
  constructor
  · intro inputs filters kernelSize strides padding dataFormat dilationRate
      groups activation useBias kI bI kR bR trainable name wN bN g1 g2 g3
      hn hh
    unfold conv2d conv2dChecked
    simp [g1, g2, g3, hn, hh]
  · intro inputs filters kernelSize strides padding dataFormat dilationRate
      groups activation useBias kI bI kR bR trainable name wN bN h
    unfold conv2d
    cases hc : conv2dChecked (Blob.shape inputs) filters kernelSize
        dataFormat groups with
    | error e =>
      cases e with
      | valueError m =>
        exact absurd hc (conv2dChecked_no_valueError (Blob.shape inputs)
          filters kernelSize dataFormat groups h m)
      | assertionError => rfl
      | indexError => rfl
    | ok ws => rfl

/-- C5 witness: the amended theorem applied to a concrete call with valid
groups and data format "XHWC". -/
theorem c5_witness :
    ((0 : Int) < 1 ∧ ¬ pyUpper "XHWC" = "NCHW" ∧ ¬ pyUpper "XHWC" = "NHWC") ∧
    ((conv2d inputBlob4 4 (.int 3) (.int 1) "VALID" "XHWC" 1 1 none true none
        none none none true (some "C") none none).result
      = Except.error (.valueError "data_format must be in NCHW or NHWC") ∧
     (conv2d inputBlob4 4 (.int 3) (.int 1) "VALID" "XHWC" 1 1 none true none
        none none none true (some "C") none none).events = []) :=
  ⟨by decide,
   c5_data_format_validation.1 inputBlob4 4 (.int 3) (.int 1) "VALID" "XHWC"
     1 1 none true none none none none true (some "C") none none (by decide)
     (by decide) (by decide) (by decide) (by decide)⟩

/-- Helper: if `conv2d`'s validation succeeds, the group-count constraints
held. -/
theorem conv2dChecked_ok_groups (shape : List Int) (filters : Int)
    (kernelSize : ISize) (dataFormat : String) (groups : Int) (ws : List Int)
    (hc : conv2dChecked shape filters kernelSize dataFormat groups = .ok ws) :
    groupsOk shape filters groups dataFormat = true := by
  by_cases g1 : 0 < groups
  · by_cases g2 : groups ≤ filters
    · by_cases g3 : filters % groups = 0
      · by_cases hdf : pyUpper dataFormat = "NCHW"
        · cases hs : shape[1]? with
          | none =>
            unfold conv2dChecked at hc
            simp [g1, g2, g3, hdf, hs] at hc
          | some c =>
            by_cases g4 : groups ≤ c
            · by_cases g5 : c % groups = 0
              · simp [groupsOk, g1, g2, g3, hdf, hs, g4, g5]
              · unfold conv2dChecked at hc
                simp [g1, g2, g3, hdf, hs, g4, g5] at hc
            · unfold conv2dChecked at hc
              simp [g1, g2, g3, hdf, hs, g4] at hc
        · by_cases hdf2 : pyUpper dataFormat = "NHWC"
          · by_cases g6 : groups = 1
            · simp [groupsOk, g1, g2, g3, hdf, hdf2, g6]
              omega
            · unfold conv2dChecked at hc
              simp [g1, g2, g3, hdf, hdf2, g6] at hc
          · unfold conv2dChecked at hc
            simp [g1, g2, g3, hdf, hdf2] at hc
      · unfold conv2dChecked at hc
        simp [g1, g2, g3] at hc
    · unfold conv2dChecked at hc
      simp [g1, g2] at hc
  · unfold conv2dChecked at hc
    simp [g1] at hc

/-- C6: whenever the group-count constraints do not all hold (`groups`
positive, `groups ≤ filters`, `filters` divisible by `groups`, and for
uppercase-NCHW `groups` bounded by and dividing `inputs.shape[1]`, for
uppercase-NHWC `groups = 1`), the `conv2d` call fails with an immediate
argument error. -/
theorem c6_groups_validation (inputs : Blob) (filters : Int)
    (kernelSize strides : ISize) (padding dataFormat : String)
    (dilationRate groups : Int)
    (activation : Option (Blob → String → Blob)) (useBias : Bool)
    (kI bI : Option Initializer) (kR bR : Option Nat) (trainable : Bool)
    (name wN bN : Option String)
    (h : groupsOk (Blob.shape inputs) filters groups dataFormat = false) :
    resultOk (conv2d inputs filters kernelSize strides padding dataFormat
      dilationRate groups activation useBias kI bI kR bR trainable name
      wN bN).result = false := by
  unfold conv2d
  cases hc : conv2dChecked (Blob.shape inputs) filters kernelSize dataFormat
      groups with
  | error e => rfl
  | ok ws =>
    rw [conv2dChecked_ok_groups (Blob.shape inputs) filters kernelSize
      dataFormat groups ws hc] at h
    exact absurd h (by simp)

/-- C6 witness: the theorem applied to a concrete call whose input channel
count (4) is not divisible by `groups` (3). -/
theorem c6_witness :
    groupsOk (Blob.shape inputBlob4) 6 3 "NCHW" = false ∧
    resultOk (conv2d inputBlob4 6 (.int 3) (.int 1) "VALID" "NCHW" 1 3 none
      true none none none none true (some "C") none none).result = false :=
  ⟨by decide,
   c6_groups_validation inputBlob4 6 (.int 3) (.int 1) "VALID" "NCHW" 1 3
     none true none none none none true (some "C") none none (by decide)⟩

/-- C7: for every `upsample` call whose `size` passes the assertions (an
int or a length-2 list/tuple), a ValueError is raised exactly when the
interpolation string is neither "nearest" nor "bilinear" or the uppercase
data format is neither "NCHW" nor "NHWC"; and the interpolation check runs
before any operator node is built (a failing interpolation leaves an empty
event list). -/
theorem c7_upsample_validation (x : Blob) (size : ISize)
    (dataFormat interpolation : String) (name : Option String)
    (h : sizeOk size = true) :
    (isValueError (upsample x size dataFormat interpolation name).result
        = true ↔
      ((¬ interpolation = "nearest" ∧ ¬ interpolation = "bilinear") ∨
       (¬ pyUpper dataFormat = "NCHW" ∧ ¬ pyUpper dataFormat = "NHWC"))) ∧
    ((¬ interpolation = "nearest" ∧ ¬ interpolation = "bilinear") →
      (upsample x size dataFormat interpolation name).events = [] ∧
      (upsample x size dataFormat interpolation name).result =
        Except.error
          (.valueError "interpolation must be \"nearest\" or \"bilinear\".")) := by
  cases size with
  | int n =>
    by_cases h1 : ¬ interpolation = "nearest" ∧ ¬ interpolation = "bilinear"
    · exact ⟨by simp [upsample, h1, isValueError], fun _ => by simp [upsample, h1]⟩
    · by_cases h2 : ¬ pyUpper dataFormat = "NCHW" ∧
          ¬ pyUpper dataFormat = "NHWC"
      · exact ⟨by simp [upsample, h1, h2, isValueError],
          fun hcon => absurd hcon h1⟩
      · refine ⟨?_, fun hcon => absurd hcon h1⟩
        rcases not_and_or.mp h2 with hA | hB
        · simp [upsample, h1, h2, not_not.mp hA, isValueError]
        · simp [upsample, h1, h2, not_not.mp hB, isValueError]
  | list l =>
    have h0 : l.length = 2 := by simpa [sizeOk] using h
    by_cases h1 : ¬ interpolation = "nearest" ∧ ¬ interpolation = "bilinear"
    · exact ⟨by simp [upsample, h0, h1, isValueError],
        fun _ => by simp [upsample, h0, h1]⟩
    · by_cases h2 : ¬ pyUpper dataFormat = "NCHW" ∧
          ¬ pyUpper dataFormat = "NHWC"
      · exact ⟨by simp [upsample, h0, h1, h2, isValueError],
          fun hcon => absurd hcon h1⟩
      · refine ⟨?_, fun hcon => absurd hcon h1⟩
        rcases not_and_or.mp h2 with hA | hB
        · simp [upsample, h0, h1, h2, not_not.mp hA, isValueError]
        · simp [upsample, h0, h1, h2, not_not.mp hB, isValueError]

/-- C7 witness: the theorem applied at a concrete call with valid size and
the unsupported interpolation mode "cubic". -/
theorem c7_witness :
    sizeOk (.int 2) = true ∧
    ((isValueError (upsample inputBlob4 (.int 2) "NCHW" "cubic"
          (some "U")).result = true ↔
        ((¬ "cubic" = "nearest" ∧ ¬ "cubic" = "bilinear") ∨
         (¬ pyUpper "NCHW" = "NCHW" ∧ ¬ pyUpper "NCHW" = "NHWC"))) ∧
      ((¬ "cubic" = "nearest" ∧ ¬ "cubic" = "bilinear") →
        (upsample inputBlob4 (.int 2) "NCHW" "cubic" (some "U")).events = [] ∧
        (upsample inputBlob4 (.int 2) "NCHW" "cubic" (some "U")).result =
          Except.error
            (.valueError "interpolation must be \"nearest\" or \"bilinear\"."))) :=
  ⟨by decide,
   c7_upsample_validation inputBlob4 (.int 2) "NCHW" "cubic" (some "U")
     (by decide)⟩

/-- C8: `batch_normalization` validates `axis` against the input rank —
out of range `[-len(shape), len(shape))` the call fails immediately (no
variable or operator created); in range, a negative axis is normalized by
adding the rank, and beta, gamma, moving_mean and moving_variance all use
the parameter shape `[inputs.shape[axis]]` at the normalized axis. -/
theorem c8_axis_validation (funcTrainable : Bool) (inputs : Blob) (axis : Int)
    (center scale : Bool) (bI gI : Option Initializer) (bR gR : Option Nat)
    (mmI mvI : Option Initializer) (trainable training : Bool)
    (name : Option String) :
    (¬ (-((Blob.shape inputs).length : Int) ≤ axis ∧
        axis < ((Blob.shape inputs).length : Int)) →
      (batchNormalization funcTrainable inputs axis center scale bI gI bR gR
          mmI mvI trainable training name).result
        = Except.error Err.assertionError ∧
      (batchNormalization funcTrainable inputs axis center scale bI gI bR gR
          mmI mvI trainable training name).events = []) ∧
    ((-((Blob.shape inputs).length : Int) ≤ axis ∧
        axis < ((Blob.shape inputs).length : Int)) →
      ∃ b, (batchNormalization funcTrainable inputs axis center scale bI gI
          bR gR mmI mvI trainable training name).result = Except.ok b ∧
        b.bnAxis = some (if axis < 0 then
          axis + ((Blob.shape inputs).length : Int) else axis) ∧
        b.bnBeta.map Blob.shape = some [(Blob.shape inputs).getD
          (if axis < 0 then axis + ((Blob.shape inputs).length : Int)
           else axis).toNat 0] ∧
        b.bnGamma.map Blob.shape = some [(Blob.shape inputs).getD
          (if axis < 0 then axis + ((Blob.shape inputs).length : Int)
           else axis).toNat 0] ∧
        b.bnMovingMean.map Blob.shape = some [(Blob.shape inputs).getD
          (if axis < 0 then axis + ((Blob.shape inputs).length : Int)
           else axis).toNat 0] ∧
        b.bnMovingVariance.map Blob.shape = some [(Blob.shape inputs).getD
          (if axis < 0 then axis + ((Blob.shape inputs).length : Int)
           else axis).toNat 0]) := by
  constructor
  · intro h
    simp [batchNormalization, h]
  · intro h
    unfold batchNormalization
    rw [if_neg (not_not_intro h)]
    by_cases hc : center <;> by_cases hs : scale <;>
      simp only [hc, hs, if_true, if_false, ite_true, ite_false, reduceIte] <;>
      exact ⟨_, rfl, rfl, rfl, rfl, rfl, rfl⟩

/-- C8 witness: the theorem applied to a concrete in-range call (4-axis
input, axis -1, normalized to 3, channel count 5). -/
theorem c8_witness :
    (-(((Blob.shape inputBlob4).length : Int)) ≤ -1 ∧
       (-1 : Int) < (((Blob.shape inputBlob4).length : Int))) ∧
    (∃ b, (batchNormalization true inputBlob4 (-1) true true none none none
        none none none true true (some "B")).result = Except.ok b ∧
      b.bnAxis = some 3 ∧
      b.bnBeta.map Blob.shape = some [5] ∧
      b.bnGamma.map Blob.shape = some [5] ∧
      b.bnMovingMean.map Blob.shape = some [5] ∧
      b.bnMovingVariance.map Blob.shape = some [5]) :=
  ⟨by decide, by
    have hw := (c8_axis_validation true inputBlob4 (-1) true true none none
      none none none none true true (some "B")).2 (by decide)
    simpa using hw⟩

/-- C9: the claim states that with a non-None activation the returned
handle is the activation applied to the core result (which for `dense` on
an input with more than 2 axes includes the trailing reshape).
Counterexample: for a 3-axis input the returned handle is the reshape OF
the activation result, not the activation of the reshaped result. -/
theorem c9_counterexample :
    resultOk (dense inputBlob3 5 none true none none none none true (some "D")
      .broadcast).result = true ∧
    (dense inputBlob3 5 (some actCallback) true none none none none true
        (some "D") .broadcast).result ≠
      (dense inputBlob3 5 none true none none none none true (some "D")
        .broadcast).result.map (fun b => Blob.act 7 b "D_activation") := by
  decide

/-- C9 (amended): the activation callback is applied exactly when non-None.
For `conv2d` it is applied to the convolution-plus-optional-bias result
(the result of the same call with no activation).  For `dense` it is
likewise applied exactly when non-None, but BEFORE the trailing reshape:
on an input with more than 2 axes the returned handle is the reshape of
the activation result; with no activation the returned handle is the
pre-activation core (plus that trailing reshape) unchanged. -/
theorem c9_activation_order :
    (∀ (inputs : Blob) (units : Int) (f : Blob → String → Blob)
        (useBias : Bool) (kI bI : Option Initializer) (kR bR : Option Nat)
        (trainable : Bool) (name : Option String) (dist : Distribute),
      (dense inputs units (some f) useBias kI bI kR bR trainable name
          dist).result =
        (densePre inputs units useBias kI bI kR bR trainable name
            dist).result.map (fun b =>
          if 2 < (Blob.shape inputs).length then
            Blob.reshape (f b (name.getD (uniqueStr "Dense_") ++
              "_activation")) ((Blob.shape inputs).dropLast ++ [units])
          else f b (name.getD (uniqueStr "Dense_") ++ "_activation")) ∧
      (dense inputs units (some f) useBias kI bI kR bR trainable name
          dist).events =
        (dense inputs units none useBias kI bI kR bR trainable name
          dist).events) ∧
    (∀ (inputs : Blob) (units : Int) (useBias : Bool)
        (kI bI : Option Initializer) (kR bR : Option Nat) (trainable : Bool)
        (name : Option String) (dist : Distribute),
      (dense inputs units none useBias kI bI kR bR trainable name
          dist).result =
        (densePre inputs units useBias kI bI kR bR trainable name
            dist).result.map (fun b =>
          if 2 < (Blob.shape inputs).length then
            Blob.reshape b ((Blob.shape inputs).dropLast ++ [units])
          else b)) ∧
    (∀ (inputs : Blob) (filters : Int) (kernelSize strides : ISize)
        (padding dataFormat : String) (dilationRate groups : Int)
        (f : Blob → String → Blob) (useBias : Bool)
        (kI bI : Option Initializer) (kR bR : Option Nat) (trainable : Bool)
        (name wN bN : Option String),
      (conv2d inputs filters kernelSize strides padding dataFormat
          dilationRate groups (some f) useBias kI bI kR bR trainable name
          wN bN).result =
        (conv2d inputs filters kernelSize strides padding dataFormat
            dilationRate groups none useBias kI bI kR bR trainable name
            wN bN).result.map
          (fun b => f b (name.getD (uniqueStr "Conv2D_") ++ "-activation")) ∧
      (conv2d inputs filters kernelSize strides padding dataFormat
          dilationRate groups (some f) useBias kI bI kR bR trainable name
          wN bN).events =
        (conv2d inputs filters kernelSize strides padding dataFormat
          dilationRate groups none useBias kI bI kR bR trainable name
          wN bN).events) := by
  refine ⟨?_, ?_, ?_⟩
  · intro inputs units f useBias kI bI kR bR trainable name dist
    unfold dense
    rcases hd : densePre inputs units useBias kI bI kR bR trainable name dist
      with ⟨evs, res⟩
    cases res with
    | error e => simp [Except.map]
    | ok out =>
      by_cases h4 : 2 < (Blob.shape inputs).length <;>
        simp [h4, Except.map]
  · intro inputs units useBias kI bI kR bR trainable name dist
    unfold dense
    rcases hd : densePre inputs units useBias kI bI kR bR trainable name dist
      with ⟨evs, res⟩
    cases res with
    | error e => simp [Except.map]
    | ok out =>
      by_cases h4 : 2 < (Blob.shape inputs).length <;>
        simp [h4, Except.map]
  · intro inputs filters kernelSize strides padding dataFormat dilationRate
      groups f useBias kI bI kR bR trainable name wN bN
    unfold conv2d
    cases hc : conv2dChecked (Blob.shape inputs) filters kernelSize
        dataFormat groups with
    | error e => exact ⟨rfl, rfl⟩
    | ok ws =>
      unfold conv2dBuild
      by_cases h : useBias <;> simp [h, Except.map]

/-- C10: in every (in-range) `batch_normalization` call, the moving_mean
and moving_variance variables are registered with `trainable = False`
regardless of the `trainable` argument; the `training` attribute handed to
the op is forced to False whenever `trainable` is False or the enclosing
global function is not trainable; and the op receives the extra outputs
"mean" and "inv_variance" exactly when both `trainable` and the forced
training flag are True. -/
theorem c10_bn_flags (funcTrainable : Bool) (inputs : Blob) (axis : Int)
    (center scale : Bool) (bI gI : Option Initializer) (bR gR : Option Nat)
    (mmI mvI : Option Initializer) (trainable training : Bool)
    (name : Option String)
    (h : -((Blob.shape inputs).length : Int) ≤ axis ∧
        axis < ((Blob.shape inputs).length : Int)) :
    (Event.varCreated (name.getD (uniqueStr "BatchNorm_") ++ "-moving_mean")
        [(Blob.shape inputs).getD (if axis < 0 then
            axis + ((Blob.shape inputs).length : Int) else axis).toNat 0]
        (if Blob.dtype inputs = .float16 then .float32 else Blob.dtype inputs)
        (mmI.getD .zeros) none false none (some .broadcast)
      ∈ (batchNormalization funcTrainable inputs axis center scale bI gI bR
          gR mmI mvI trainable training name).events) ∧
    (Event.varCreated
        (name.getD (uniqueStr "BatchNorm_") ++ "-moving_variance")
        [(Blob.shape inputs).getD (if axis < 0 then
            axis + ((Blob.shape inputs).length : Int) else axis).toNat 0]
        (if Blob.dtype inputs = .float16 then .float32 else Blob.dtype inputs)
        (mvI.getD .ones) none false none (some .broadcast)
      ∈ (batchNormalization funcTrainable inputs axis center scale bI gI bR
          gR mmI mvI trainable training name).events) ∧
    (∃ b, (batchNormalization funcTrainable inputs axis center scale bI gI
        bR gR mmI mvI trainable training name).result = Except.ok b ∧
      b.bnTraining = some (if ¬ funcTrainable ∨ ¬ trainable then false
        else training) ∧
      b.bnOuts = some (if trainable ∧
          (if ¬ funcTrainable ∨ ¬ trainable then false else training) then
        ["y", "mean", "inv_variance"] else ["y"])) := by
  unfold batchNormalization
  rw [if_neg (not_not_intro h)]
  by_cases hc : center <;> by_cases hs : scale <;>
    simp only [hc, hs, if_true, if_false, ite_true, ite_false, reduceIte] <;>
    exact ⟨by simp, by simp, ⟨_, rfl, rfl, rfl⟩⟩

/-- C10 witness: the theorem applied to a concrete call inside a
non-trainable global function with `trainable = True`, `training = True`:
the training flag is forced to False and no extra outputs are requested. -/
theorem c10_witness :
    (-(((Blob.shape inputBlob4).length : Int)) ≤ -1 ∧
       (-1 : Int) < (((Blob.shape inputBlob4).length : Int))) ∧
    ((Event.varCreated "B-moving_mean" [5] .float32 .zeros none false none
        (some .broadcast)
      ∈ (batchNormalization false inputBlob4 (-1) true true none none none
          none none none true true (some "B")).events) ∧
     (Event.varCreated "B-moving_variance" [5] .float32 .ones none false none
        (some .broadcast)
      ∈ (batchNormalization false inputBlob4 (-1) true true none none none
          none none none true true (some "B")).events) ∧
     (∃ b, (batchNormalization false inputBlob4 (-1) true true none none none
          none none none true true (some "B")).result = Except.ok b ∧
       b.bnTraining = some false ∧
       b.bnOuts = some ["y"])) :=
  ⟨by decide, by
    have hw := c10_bn_flags false inputBlob4 (-1) true true none none none
      none none none true true (some "B") (by decide)
    simpa using hw⟩

end OneFlowLayers
